import Mathlib

/-!
Verification of the Modbus Integration & Visualization Suite against its
specification.  The dashboard frontend (models.ts, apiService.ts,
DashboardPage.tsx) and the gateway configuration (config.yaml) are embedded
from the source; the gateway/API backend components (Device Session,
Polling Scheduler, Normalizer, Storage Sink, Command Executor, Real-time
Relay) are not part of the source tree and are modelled from the
specification where a claim needs them, as marked in each doc comment.
-/

/-- A Modbus register kind, as enumerated in the spec's RegisterGroup and in
the comments of models.ts ("coil", "discrete_input", "holding_register",
"input_register"). -/
inductive RegKind where
  | coil
  | discrete_input
  | holding_register
  | input_register
deriving DecidableEq, Repr

/-- The string tag used for a register kind in tag sets and topics. -/
def RegKind.tagString : RegKind → String
  | RegKind.coil => "coil"
  | RegKind.discrete_input => "discrete_input"
  | RegKind.holding_register => "holding_register"
  | RegKind.input_register => "input_register"

/-- A value that is either numeric or boolean, the payload value type of
`RealTimeDataUpdate` in models.ts (`value: number | boolean`). -/
inductive NBValue where
  | num (n : Int)
  | bool (b : Bool)
deriving DecidableEq, Repr

/-- A value of the historical `DataPoint` model in models.ts:
`value: number | boolean | string`. -/
inductive DPValue where
  | num (n : Int)
  | bool (b : Bool)
  | str (s : String)
deriving DecidableEq, Repr

/-- Whether a `DPValue` is numeric or boolean (and not any other type). -/
def DPValue.isNumOrBool : DPValue → Bool
  | DPValue.num _ => true
  | DPValue.bool _ => true
  | DPValue.str _ => false

/-- The historical `DataPoint` interface of models.ts: an ISO time string, a
value that may be a number, a boolean or a string, and an open-ended index
signature `[key: string]: any` for other tags/fields, embedded as an
association list. -/
structure DataPoint where
  time : String
  value : DPValue
  extra : List (String × String)
deriving DecidableEq, Repr

/-- The fixed five-key tag object of `RealTimeDataUpdate.payload.tags` in
models.ts. -/
structure UpdateTags where
  device_name : String
  slave_id : String
  register_name : String
  address : String
  register_type : String
deriving DecidableEq, Repr

/-- The `RealTimeDataUpdate.payload` object of models.ts: ISO timestamp,
numeric-or-boolean value, and the five-key tag object. -/
structure UpdatePayload where
  timestamp : String
  value : NBValue
  tags : UpdateTags
deriving DecidableEq, Repr

/-- The `RealTimeDataUpdate` interface of models.ts (the derived optional
UI fields are not part of the wire shape and are omitted). -/
structure RealTimeDataUpdate where
  topic : String
  payload : UpdatePayload
deriving DecidableEq, Repr

/-- A JSON value, the wire form of messages on the live-update channel. -/
inductive Json where
  | str (s : String)
  | num (n : Int)
  | bool (b : Bool)
  | null
  | arr (xs : List Json)
  | obj (fields : List (String × Json))

/-- Serialization of a numeric-or-boolean value to JSON. -/
def NBValue.toJson : NBValue → Json
  | NBValue.num n => Json.num n
  | NBValue.bool b => Json.bool b

/-- Serialization of the five-key tag object to JSON, key order as declared
in models.ts. -/
def UpdateTags.toJson (t : UpdateTags) : Json :=
  Json.obj [("device_name", Json.str t.device_name),
            ("slave_id", Json.str t.slave_id),
            ("register_name", Json.str t.register_name),
            ("address", Json.str t.address),
            ("register_type", Json.str t.register_type)]

/-- Serialization of a `RealTimeDataUpdate` to the JSON wire shape
`{topic, payload:{timestamp, value, tags:{...}}}`. -/
def RealTimeDataUpdate.toJson (u : RealTimeDataUpdate) : Json :=
  Json.obj [("topic", Json.str u.topic),
            ("payload", Json.obj
              [("timestamp", Json.str u.payload.timestamp),
               ("value", u.payload.value.toJson),
               ("tags", u.payload.tags.toJson)])]

/-- Field lookup on a JSON object (`none` on non-objects). -/
def Json.field (j : Json) (key : String) : Option Json :=
  match j with
  | Json.obj fields =>
      match fields.find? (fun p => p.1 == key) with
      | some p => some p.2
      | none => none
  | _ => none

/-- The list of keys of a JSON object. -/
def Json.keys : Json → List String
  | Json.obj fields => fields.map Prod.fst
  | _ => []

/-- Whether a JSON value is a number or a boolean. -/
def Json.isNumOrBool : Json → Bool
  | Json.num _ => true
  | Json.bool _ => true
  | _ => false

/-- Whether a JSON value is a string. -/
def Json.isStr : Json → Bool
  | Json.str _ => true
  | _ => false

/-- The shape required of every live-update message: a top-level object with
exactly the keys `topic` and `payload`; the payload an object with exactly
the keys `timestamp`, `value` and `tags`; the value numeric or boolean; the
tags an object with exactly the five keys `device_name`, `slave_id`,
`register_name`, `address`, `register_type`, each a string. -/
def hasUpdateShape (j : Json) : Bool :=
  (j.keys == ["topic", "payload"]) &&
  (match j.field "topic" with | some t => t.isStr | none => false) &&
  (match j.field "payload" with
   | some p =>
     (p.keys == ["timestamp", "value", "tags"]) &&
     (match p.field "timestamp" with | some t => t.isStr | none => false) &&
     (match p.field "value" with | some v => v.isNumOrBool | none => false) &&
     (match p.field "tags" with
      | some tg =>
        (tg.keys == ["device_name", "slave_id", "register_name",
                     "address", "register_type"]) &&
        (tg.keys.all (fun k => match tg.field k with
                               | some v => v.isStr
                               | none => false))
      | none => false)
   | none => false)

/-- Parsing a JSON value back into a `RealTimeDataUpdate`; `none` when the
value does not have the live-update shape. -/
def parseUpdate (j : Json) : Option RealTimeDataUpdate :=
  match j.field "topic", j.field "payload" with
  | some (Json.str topic), some p =>
    match p.field "timestamp", p.field "value", p.field "tags" with
    | some (Json.str ts), some v, some tg =>
      match tg.field "device_name", tg.field "slave_id",
            tg.field "register_name", tg.field "address",
            tg.field "register_type" with
      | some (Json.str dn), some (Json.str si), some (Json.str rn),
        some (Json.str ad), some (Json.str rt) =>
        match v with
        | Json.num n =>
          some ⟨topic, ⟨ts, NBValue.num n, ⟨dn, si, rn, ad, rt⟩⟩⟩
        | Json.bool b =>
          some ⟨topic, ⟨ts, NBValue.bool b, ⟨dn, si, rn, ad, rt⟩⟩⟩
        | _ => none
      | _, _, _, _, _ => none
    | _, _, _ => none
  | _, _ => none

/-- The value type of `WriteRegisterRequest` in models.ts:
`value: number | boolean`. -/
inductive WriteValue where
  | num (n : Int)
  | bool (b : Bool)
deriving DecidableEq, Repr

/-- The register kinds writable through the command interface, the union
type `'coil' | 'holding_register'` of `WriteRegisterRequest.register_type`
in models.ts. -/
inductive WritableKind where
  | coil
  | holding_register
deriving DecidableEq, Repr

/-- The `WriteRegisterRequest` interface of models.ts:
`{slave_id, address, value, register_type}`. -/
structure WriteRegisterRequest where
  slave_id : Nat
  address : Nat
  value : WriteValue
  register_type : WritableKind
deriving DecidableEq, Repr

/-- The `WriteResponse` interface of models.ts: a status string and a
message string (the optional echo fields are omitted). -/
structure WriteResponse where
  status : String
  message : String
deriving DecidableEq, Repr

/-- Modelled from the spec: outcome of a Device Session `write`, which
returns an Ack or fails with Timeout, TransportError or Rejected
(spec 4.1). -/
inductive DeviceWriteOutcome where
  | ack
  | timeout
  | transportError
  | rejectedByDevice
deriving DecidableEq, Repr

/-- An operation issued to the device transport, used to record whether a
command submission touched the device. -/
inductive DeviceOp where
  | write (req : WriteRegisterRequest)
deriving DecidableEq, Repr

/-- Modelled from the spec: the Command Executor's type check that the value
type matches the register kind — boolean for coil, numeric for
holding-register (spec 4.6). -/
def valueMatchesKind : WriteValue → WritableKind → Bool
  | WriteValue.bool _, WritableKind.coil => true
  | WriteValue.num _, WritableKind.holding_register => true
  | _, _ => false

/-- Modelled from the spec: the Command Executor's `submit` (spec 4.6),
which is not in the source tree.  Validation before dispatch: the value
type must match the register kind; violations return `rejected` without
touching the device (the returned list of device operations is empty).
Valid commands are forwarded to the Device Session's write; an Ack yields
`applied`, transport or protocol failures yield `failed`.  The result is
rendered as the `WriteResponse` `{status, message}` of models.ts. -/
def submitCommand (dev : DeviceWriteOutcome) (req : WriteRegisterRequest) :
    WriteResponse × List DeviceOp :=
  if valueMatchesKind req.value req.register_type then
    match dev with
    | DeviceWriteOutcome.ack =>
        (⟨"applied", "write applied"⟩, [DeviceOp.write req])
    | DeviceWriteOutcome.timeout =>
        (⟨"failed", "device timeout"⟩, [DeviceOp.write req])
    | DeviceWriteOutcome.transportError =>
        (⟨"failed", "transport error"⟩, [DeviceOp.write req])
    | DeviceWriteOutcome.rejectedByDevice =>
        (⟨"failed", "device rejected write"⟩, [DeviceOp.write req])
  else
    (⟨"rejected", "value type does not match register kind"⟩, [])

/-- The nested optional tag filter object of `HistoricalQuery` in models.ts
(the `[key: string]` index signature is embedded as an association list). -/
structure QueryTags where
  device_name : Option String
  slave_id : Option String
  register_name : Option String
  register_type : Option String
  address : Option String
  extra : List (String × String)
deriving DecidableEq, Repr

/-- The `HistoricalQuery` interface of models.ts: required `start_time` and
`end_time` ISO strings, everything else optional. -/
structure HistoricalQuery where
  start_time : String
  end_time : String
  measurement : Option String
  device_name : Option String
  slave_id : Option String
  register_name : Option String
  tags : Option QueryTags
  fields : Option (List String)
deriving DecidableEq, Repr

/-- A historical query carrying only the required time range, every
optional filter absent. -/
def timeRangeOnlyQuery (st et : String) : HistoricalQuery :=
  ⟨st, et, none, none, none, none, none, none⟩

/-- The `HistoricalDataResponse` interface of models.ts. -/
structure HistoricalDataResponse where
  query : HistoricalQuery
  data : List DataPoint
deriving DecidableEq, Repr

/-- The `TokenResponse` interface of apiService.ts. -/
structure TokenResponse where
  access_token : String
  token_type : String
deriving DecidableEq, Repr

/-- An HTTP response as observed by `loginUser` in apiService.ts: the `ok`
flag of fetch, and the body as parsed by `response.json()` — `none` when
the body is not valid JSON for a `TokenResponse`, in which case
`response.json()` rejects.  `errDetail` is the `detail` field read from an
error body, `none` when that parse fails too. -/
structure LoginHttpResponse where
  ok : Bool
  body : Option TokenResponse
  errDetail : Option String
deriving DecidableEq, Repr

/-- `loginUser` of apiService.ts, with the browser token storage
(`localStorage.accessToken`) threaded explicitly: it takes the stored token
(`none` when absent) and the server's response, and returns the promise
outcome together with the storage afterwards.  The source throws when
`!response.ok` (reading a detail from the error body with a fallback
message), otherwise awaits `response.json()` — which rejects on an
unparsable body — and only then calls `setToken(data.access_token)`. -/
def loginUser (storedToken : Option String) (resp : LoginHttpResponse) :
    Except String TokenResponse × Option String :=
  if resp.ok then
    match resp.body with
    | some data => (Except.ok data, some data.access_token)
    | none => (Except.error "invalid JSON body", storedToken)
  else
    (Except.error (resp.errDetail.getD "Login failed, server error."),
     storedToken)

/-- An HTTP response as observed by `getHistoricalData` in apiService.ts. -/
structure HistHttpResponse where
  ok : Bool
  status : Nat
  body : Option HistoricalDataResponse
  errDetail : Option String
deriving DecidableEq, Repr

/-- `getHistoricalData` of apiService.ts with the token storage threaded
explicitly: it throws when no token is stored; otherwise it posts the query
unchanged and, on a non-ok response, removes the token and throws on 401,
or throws with the error detail; on an ok response it returns the parsed
body.  No field of the query beyond what the type requires is inspected. -/
def getHistoricalData (storedToken : Option String) (_q : HistoricalQuery)
    (resp : HistHttpResponse) :
    Except String HistoricalDataResponse × Option String :=
  match storedToken with
  | none => (Except.error "Authentication token not found. Please login.",
             none)
  | some tok =>
    if resp.ok then
      match resp.body with
      | some r => (Except.ok r, some tok)
      | none => (Except.error "invalid JSON body", some tok)
    else if resp.status == 401 then
      (Except.error "Unauthorized or session expired. Please login again.",
       none)
    else
      (Except.error
        (resp.errDetail.getD "Failed to fetch historical data."), some tok)

/-- The `socket.onmessage` handler of DashboardPage.tsx, acting on the
real-time message list: a message that parses as JSON is prepended to the
first 49 retained messages (`[message, ...prevData.slice(0, 49)]`); a
message that fails to parse leaves the list unchanged (the catch block only
logs). -/
def onMessage (parsed : Option RealTimeDataUpdate)
    (prevData : List RealTimeDataUpdate) : List RealTimeDataUpdate :=
  match parsed with
  | some message => message :: prevData.take 49
  | none => prevData

/-- A configured register block of the gateway's config.yaml: a base
address and a register count. -/
structure RegisterBlock where
  address : Nat
  count : Nat
deriving DecidableEq, Repr

/-- A slave entry of the gateway's config.yaml: id, name, polling interval
in seconds, and the register blocks to poll per kind. -/
structure SlaveConfig where
  id : Nat
  name : String
  polling_interval_seconds : Nat
  holding_registers : List RegisterBlock
  input_registers : List RegisterBlock
  coils : List RegisterBlock
  discrete_inputs : List RegisterBlock
deriving DecidableEq, Repr

/-- The single slave configured in gateway/config.yaml under
`modbus_server.slaves`. -/
def configuredSlave : SlaveConfig :=
  { id := 1
  , name := "SimulatedDevice1"
  , polling_interval_seconds := 5
  , holding_registers := [⟨0, 2⟩]
  , input_registers := [⟨0, 2⟩]
  , coils := [⟨0, 1⟩, ⟨10, 1⟩]
  , discrete_inputs := [⟨0, 1⟩, ⟨5, 1⟩] }

/-- The register groups of a configured slave in declaration order, each
block paired with its register kind. -/
def SlaveConfig.groups (s : SlaveConfig) : List (RegKind × RegisterBlock) :=
  s.holding_registers.map (fun b => (RegKind.holding_register, b)) ++
  s.input_registers.map (fun b => (RegKind.input_register, b)) ++
  s.coils.map (fun b => (RegKind.coil, b)) ++
  s.discrete_inputs.map (fun b => (RegKind.discrete_input, b))

/-- A RegisterGroup descriptor of the spec's data model: kind, base
address, count and a human-readable name. -/
structure RegisterGroup where
  kind : RegKind
  address : Nat
  count : Nat
  name : String
deriving DecidableEq, Repr

/-- A DeviceDescriptor of the spec's data model: device name, slave id,
register groups and polling interval. -/
structure DeviceDescriptor where
  name : String
  slave_id : Nat
  groups : List RegisterGroup
  polling_interval_seconds : Nat
deriving DecidableEq, Repr

/-- A raw reading returned by a Device Session read: the list of raw
register (or bit) values. -/
structure RawReading where
  words : List Nat
deriving DecidableEq, Repr

/-- Modelled from the spec: the Normalizer (spec 4.3), which is not in the
source tree.  A pure function from RawReading, RegisterGroup and
DeviceDescriptor to a DataPoint: coil/discrete-input readings become
booleans, holding/input-register readings become numbers (raw encoding, no
implicit scaling); the tag set is built from the device and group identity.
It fails with MalformedReading (`none`) when the reading's length does not
match the requested count. -/
def normalizeReading (timestamp : String) (dev : DeviceDescriptor)
    (g : RegisterGroup) (r : RawReading) : Option UpdatePayload :=
  if r.words.length ≠ g.count then none
  else
    let value := match g.kind with
      | RegKind.coil => NBValue.bool (r.words.headD 0 ≠ 0)
      | RegKind.discrete_input => NBValue.bool (r.words.headD 0 ≠ 0)
      | RegKind.holding_register =>
          NBValue.num (Int.ofNat (r.words.foldl (fun a w => a * 65536 + w) 0))
      | RegKind.input_register =>
          NBValue.num (Int.ofNat (r.words.foldl (fun a w => a * 65536 + w) 0))
    some { timestamp := timestamp
         , value := value
         , tags := { device_name := dev.name
                   , slave_id := toString dev.slave_id
                   , register_name := g.name
                   , address := toString g.address
                   , register_type := g.kind.tagString } }

/-- Modelled from the spec: the Event Publisher's deterministic topic built
from the DataPoint's tags (spec 4.5), a hierarchical path of
device/register identifiers. -/
def topicFor (t : UpdateTags) : String :=
  t.device_name ++ "/" ++ t.slave_id ++ "/" ++ t.register_type ++ "/"
    ++ t.address

/-- A normalized payload wrapped as the live-update message of the exposed
subscription interface. -/
def toUpdate (p : UpdatePayload) : RealTimeDataUpdate :=
  ⟨topicFor p.tags, p⟩

/-- An input consumed by the Real-time Relay for one subscriber: either a
message from the publisher's topic stream or the subscriber's
disconnect. -/
inductive RelayInput where
  | msg (u : RealTimeDataUpdate)
  | disconnect
deriving Repr

/-- Modelled from the spec: the Real-time Relay's delivery to one
subscriber (spec 4.7), which is not in the source tree.  Each message
consumed from the topic stream is pushed, serialized to the JSON wire
shape, to the subscriber while it is connected; the subscriber's disconnect
transitions it to `closed` and nothing is delivered afterwards. -/
def relayDeliver : List RelayInput → List Json
  | [] => []
  | RelayInput.disconnect :: _ => []
  | RelayInput.msg u :: rest => u.toJson :: relayDeliver rest

/-- The tick of the Polling Scheduler over the configured device, modelled
from the spec (spec 4.2, 4.3): on each tick, one read per configured
register group in declaration order is issued, normalized, and the
resulting points form the batch handed to the Storage Sink.  The simulator
always answers a read of count `n` with `n` words, embedded here as the
reading `[1, ..., 1]`. -/
def pollTick (timestamp : String) (s : SlaveConfig) : List UpdatePayload :=
  (s.groups).filterMap (fun kb =>
    normalizeReading timestamp
      ⟨s.name, s.id, [], s.polling_interval_seconds⟩
      ⟨kb.1, kb.2.address, kb.2.count, kb.1.tagString ++ "_"
        ++ toString kb.2.address⟩
      ⟨List.replicate kb.2.count 1⟩)

/-- Three scheduler ticks over the configured device: the list of batches
the Storage Sink receives. -/
def batchesAfterTicks (n : Nat) : List (List UpdatePayload) :=
  (List.range n).map (fun i => pollTick (toString i) configuredSlave)

/-- Whether a payload carries the Scenario-A tags: the configured device
name, register type `holding_register` and address `"0"`. -/
def isScenarioAPoint (p : UpdatePayload) : Bool :=
  p.tags.device_name == configuredSlave.name &&
  p.tags.register_type == "holding_register" &&
  p.tags.address == "0"

/-- The kind of an operation queued at a Device Session: a scheduled poll
read or an externally submitted write command. -/
inductive OpKind where
  | poll
  | cmd
deriving DecidableEq, Repr

/-- An observable event of one Device Session: an operation being queued
(`sub`), dispatched to the transport (`issue`), or finished at the
transport (`fin`).  Operations carry a unique id assigned at queueing
time. -/
inductive SessionEvent where
  | sub (k : OpKind) (id : Nat)
  | issue (k : OpKind) (id : Nat)
  | fin (k : OpKind) (id : Nat)
deriving DecidableEq, Repr

/-- Modelled from the spec: the state of one Device Session (spec 4.1, 4.6,
9), which is not in the source tree.  The session holds a two-level queue
— commands ahead of polls — drained by a single worker; `inFlight` is the
single operation currently at the transport; `trace` is the append-only
history of observable events; `nextId` assigns fresh, increasing ids to
queued operations. -/
structure SessionState where
  cmdQ : List Nat
  pollQ : List Nat
  inFlight : Option (OpKind × Nat)
  nextId : Nat
  trace : List SessionEvent
deriving DecidableEq, Repr

/-- The initial state of a Device Session: idle, with empty queues. -/
def initSession : SessionState :=
  ⟨[], [], none, 0, []⟩

/-- Modelled from the spec: one step of a Device Session (spec 4.1, 4.6).
A write command or a poll may be queued at any time; the single worker
dispatches only when idle, taking a queued command before any queued poll
and never preempting the operation in flight; a dispatched operation later
finishes, freeing the worker. -/
inductive SessionStep : SessionState → SessionState → Prop where
  | submitCmd (s : SessionState) :
      SessionStep s
        { s with cmdQ := s.cmdQ ++ [s.nextId]
               , nextId := s.nextId + 1
               , trace := s.trace ++ [SessionEvent.sub OpKind.cmd s.nextId] }
  | submitPoll (s : SessionState) :
      SessionStep s
        { s with pollQ := s.pollQ ++ [s.nextId]
               , nextId := s.nextId + 1
               , trace := s.trace ++ [SessionEvent.sub OpKind.poll s.nextId] }
  | dispatchCmd (s : SessionState) (c : Nat) (rest : List Nat)
      (hIdle : s.inFlight = none) (hQ : s.cmdQ = c :: rest) :
      SessionStep s
        { s with cmdQ := rest
               , inFlight := some (OpKind.cmd, c)
               , trace := s.trace ++ [SessionEvent.issue OpKind.cmd c] }
  | dispatchPoll (s : SessionState) (p : Nat) (rest : List Nat)
      (hIdle : s.inFlight = none) (hNoCmd : s.cmdQ = [])
      (hQ : s.pollQ = p :: rest) :
      SessionStep s
        { s with pollQ := rest
               , inFlight := some (OpKind.poll, p)
               , trace := s.trace ++ [SessionEvent.issue OpKind.poll p] }
  | complete (s : SessionState) (k : OpKind) (i : Nat)
      (hIn : s.inFlight = some (k, i)) :
      SessionStep s
        { s with inFlight := none
               , trace := s.trace ++ [SessionEvent.fin k i] }

/-- A Device Session state reachable from the initial state by session
steps. -/
def ReachableSession (s : SessionState) : Prop :=
  Relation.ReflTransGen SessionStep initSession s

/-- The contribution of one event to the number of operations open at the
transport: an issue opens one, a finish closes one. -/
def eventDelta : SessionEvent → Int
  | SessionEvent.issue _ _ => 1
  | SessionEvent.fin _ _ => -1
  | SessionEvent.sub _ _ => 0

/-- The number of transport operations open after a trace: issues minus
finishes. -/
def openOps (tr : List SessionEvent) : Int :=
  (tr.map eventDelta).sum

/-- The id carried by a session event. -/
def SessionEvent.eid : SessionEvent → Nat
  | SessionEvent.sub _ i => i
  | SessionEvent.issue _ i => i
  | SessionEvent.fin _ i => i

/-- Appending one event changes the open-operation count by that event's
contribution. -/
theorem openOps_append (tr : List SessionEvent) (e : SessionEvent) :
    openOps (tr ++ [e]) = openOps tr + eventDelta e := by
  simp [openOps]

/-- Every session step appends exactly one event to the trace. -/
theorem sessionStep_trace {s s' : SessionState} (h : SessionStep s s') :
    ∃ e, s'.trace = s.trace ++ [e] := by
  cases h <;> exact ⟨_, rfl⟩

/-- The inductive invariant of a Device Session: ids in the trace, the
queues and the in-flight slot are below `nextId`; every queued-but-not-yet
dispatched command is still in the command queue; the number of open
transport operations matches the in-flight slot; and a command queued
before a dispatched poll was queued has itself been dispatched. -/
structure SessionInv (s : SessionState) : Prop where
  idsTrace : ∀ e ∈ s.trace, SessionEvent.eid e < s.nextId
  idsCmdQ : ∀ c ∈ s.cmdQ, c < s.nextId
  idsPollQ : ∀ p ∈ s.pollQ, p < s.nextId
  idsFlight : ∀ k i, s.inFlight = some (k, i) → i < s.nextId
  cmdPending : ∀ c, SessionEvent.sub OpKind.cmd c ∈ s.trace →
      c ∈ s.cmdQ ∨ SessionEvent.issue OpKind.cmd c ∈ s.trace
  opensEq : openOps s.trace = if s.inFlight.isSome then 1 else 0
  priority : ∀ c p, c < p →
      SessionEvent.issue OpKind.poll p ∈ s.trace →
      SessionEvent.sub OpKind.cmd c ∈ s.trace →
      SessionEvent.issue OpKind.cmd c ∈ s.trace

/-- The initial session state satisfies the invariant. -/
theorem sessionInv_init : SessionInv initSession := by
  refine ⟨?_, ?_, ?_, ?_, ?_, ?_, ?_⟩ <;> simp [initSession, openOps]

/-- Every session step preserves the invariant. -/
theorem sessionInv_step {s s' : SessionState} (hinv : SessionInv s)
    (hstep : SessionStep s s') : SessionInv s' := by
  obtain ⟨hT, hC, hP, hF, hPend, hOpen, hPrio⟩ := hinv
  cases hstep with
  | submitCmd =>
    refine ⟨?_, ?_, ?_, ?_, ?_, ?_, ?_⟩
    · intro e he
      rcases List.mem_append.1 he with h | h
      · exact Nat.lt_succ_of_lt (hT e h)
      · rcases List.mem_singleton.1 h with rfl
        exact Nat.lt_succ_self _
    · intro c hc
      rcases List.mem_append.1 hc with h | h
      · exact Nat.lt_succ_of_lt (hC c h)
      · rcases List.mem_singleton.1 h with rfl
        exact Nat.lt_succ_self _
    · intro p hp
      exact Nat.lt_succ_of_lt (hP p hp)
    · intro k i h
      exact Nat.lt_succ_of_lt (hF k i h)
    · intro c hc
      rcases List.mem_append.1 hc with h | h
      · rcases hPend c h with h' | h'
        · exact Or.inl (List.mem_append_left _ h')
        · exact Or.inr (List.mem_append_left _ h')
      · rcases List.mem_singleton.1 h with heq
        cases heq
        exact Or.inl (List.mem_append_right _ (List.mem_singleton.2 rfl))
    · simp only [openOps_append, eventDelta, add_zero]
      exact hOpen
    · intro c p hcp hip hsc
      have hip' : SessionEvent.issue OpKind.poll p ∈ s.trace := by
        rcases List.mem_append.1 hip with h | h
        · exact h
        · simp at h
      rcases List.mem_append.1 hsc with h | h
      · exact List.mem_append_left _ (hPrio c p hcp hip' h)
      · rcases List.mem_singleton.1 h with heq
        cases heq
        have := hT _ hip'
        simp [SessionEvent.eid] at this
        omega
  | submitPoll =>
    refine ⟨?_, ?_, ?_, ?_, ?_, ?_, ?_⟩
    · intro e he
      rcases List.mem_append.1 he with h | h
      · exact Nat.lt_succ_of_lt (hT e h)
      · rcases List.mem_singleton.1 h with rfl
        exact Nat.lt_succ_self _
    · intro c hc
      exact Nat.lt_succ_of_lt (hC c hc)
    · intro p hp
      rcases List.mem_append.1 hp with h | h
      · exact Nat.lt_succ_of_lt (hP p h)
      · rcases List.mem_singleton.1 h with rfl
        exact Nat.lt_succ_self _
    · intro k i h
      exact Nat.lt_succ_of_lt (hF k i h)
    · intro c hc
      have h : SessionEvent.sub OpKind.cmd c ∈ s.trace := by
        rcases List.mem_append.1 hc with h | h
        · exact h
        · simp at h
      rcases hPend c h with h' | h'
      · exact Or.inl h'
      · exact Or.inr (List.mem_append_left _ h')
    · simp only [openOps_append, eventDelta, add_zero]
      exact hOpen
    · intro c p hcp hip hsc
      have hip' : SessionEvent.issue OpKind.poll p ∈ s.trace := by
        rcases List.mem_append.1 hip with h | h
        · exact h
        · simp at h
      have hsc' : SessionEvent.sub OpKind.cmd c ∈ s.trace := by
        rcases List.mem_append.1 hsc with h | h
        · exact h
        · simp at h
      exact List.mem_append_left _ (hPrio c p hcp hip' hsc')
  | dispatchCmd c0 rest hIdle hQ =>
    refine ⟨?_, ?_, ?_, ?_, ?_, ?_, ?_⟩
    · intro e he
      rcases List.mem_append.1 he with h | h
      · exact hT e h
      · rcases List.mem_singleton.1 h with rfl
        exact hC c0 (hQ ▸ List.mem_cons_self c0 rest)
    · intro c hc
      exact hC c (hQ ▸ List.mem_cons_of_mem c0 hc)
    · exact hP
    · intro k i h
      rcases Option.some.inj h with heq
      cases heq
      exact hC c0 (hQ ▸ List.mem_cons_self c0 rest)
    · intro c hc
      have h : SessionEvent.sub OpKind.cmd c ∈ s.trace := by
        rcases List.mem_append.1 hc with h | h
        · exact h
        · simp at h
      rcases hPend c h with h' | h'
      · rw [hQ] at h'
        rcases List.mem_cons.1 h' with rfl | h''
        · exact Or.inr (List.mem_append_right _ (List.mem_singleton.2 rfl))
        · exact Or.inl h''
      · exact Or.inr (List.mem_append_left _ h')
    · simp only [openOps_append, eventDelta]
      rw [hIdle] at hOpen
      simp at hOpen
      simp [hOpen]
    · intro c p hcp hip hsc
      have hip' : SessionEvent.issue OpKind.poll p ∈ s.trace := by
        rcases List.mem_append.1 hip with h | h
        · exact h
        · simp at h
      have hsc' : SessionEvent.sub OpKind.cmd c ∈ s.trace := by
        rcases List.mem_append.1 hsc with h | h
        · exact h
        · simp at h
      exact List.mem_append_left _ (hPrio c p hcp hip' hsc')
  | dispatchPoll p0 rest hIdle hNoCmd hQ =>
    refine ⟨?_, ?_, ?_, ?_, ?_, ?_, ?_⟩
    · intro e he
      rcases List.mem_append.1 he with h | h
      · exact hT e h
      · rcases List.mem_singleton.1 h with rfl
        exact hP p0 (hQ ▸ List.mem_cons_self p0 rest)
    · exact hC
    · intro p hp
      exact hP p (hQ ▸ List.mem_cons_of_mem p0 hp)
    · intro k i h
      rcases Option.some.inj h with heq
      cases heq
      exact hP p0 (hQ ▸ List.mem_cons_self p0 rest)
    · intro c hc
      have h : SessionEvent.sub OpKind.cmd c ∈ s.trace := by
        rcases List.mem_append.1 hc with h | h
        · exact h
        · simp at h
      rcases hPend c h with h' | h'
      · exact Or.inl h'
      · exact Or.inr (List.mem_append_left _ h')
    · simp only [openOps_append, eventDelta]
      rw [hIdle] at hOpen
      simp at hOpen
      simp [hOpen]
    · intro c p hcp hip hsc
      have hsc' : SessionEvent.sub OpKind.cmd c ∈ s.trace := by
        rcases List.mem_append.1 hsc with h | h
        · exact h
        · simp at h
      rcases List.mem_append.1 hip with h | h
      · exact List.mem_append_left _ (hPrio c p hcp h hsc')
      · rcases hPend c hsc' with h' | h'
        · rw [hNoCmd] at h'
          simp at h'
        · exact List.mem_append_left _ h'
  | complete k i hIn =>
    refine ⟨?_, ?_, ?_, ?_, ?_, ?_, ?_⟩
    · intro e he
      rcases List.mem_append.1 he with h | h
      · exact hT e h
      · rcases List.mem_singleton.1 h with rfl
        exact hF k i hIn
    · exact hC
    · exact hP
    · intro k' i' h
      simp at h
    · intro c hc
      have h : SessionEvent.sub OpKind.cmd c ∈ s.trace := by
        rcases List.mem_append.1 hc with h | h
        · exact h
        · simp at h
      rcases hPend c h with h' | h'
      · exact Or.inl h'
      · exact Or.inr (List.mem_append_left _ h')
    · simp only [openOps_append, eventDelta]
      rw [hIn] at hOpen
      simp at hOpen
      simp [hOpen]
    · intro c p hcp hip hsc
      have hip' : SessionEvent.issue OpKind.poll p ∈ s.trace := by
        rcases List.mem_append.1 hip with h | h
        · exact h
        · simp at h
      have hsc' : SessionEvent.sub OpKind.cmd c ∈ s.trace := by
        rcases List.mem_append.1 hsc with h | h
        · exact h
        · simp at h
      exact List.mem_append_left _ (hPrio c p hcp hip' hsc')

/-- Every reachable session state satisfies the invariant. -/
theorem sessionInv_reachable {s : SessionState} (h : ReachableSession s) :
    SessionInv s := by
  induction h with
  | refl => exact sessionInv_init
  | tail _ hstep ih => exact sessionInv_step ih hstep

/-- Every prefix of a reachable trace is itself the trace of a reachable
session state (steps append one event at a time). -/
theorem reachableSession_take {s : SessionState} (h : ReachableSession s) :
    ∀ n, ∃ s', ReachableSession s' ∧ s'.trace = s.trace.take n := by
  induction h with
  | refl =>
    intro n
    exact ⟨initSession, Relation.ReflTransGen.refl, by simp [initSession]⟩
  | @tail b c hab hbc ih =>
    intro n
    obtain ⟨e, he⟩ := sessionStep_trace hbc
    by_cases hn : n ≤ b.trace.length
    · obtain ⟨s', hs', htr⟩ := ih n
      exact ⟨s', hs', by rw [he, List.take_append_of_le_length hn, htr]⟩
    · refine ⟨c, Relation.ReflTransGen.tail hab hbc, ?_⟩
      rw [he]
      have : (b.trace ++ [e]).length ≤ n := by
        simp
        omega
      rw [List.take_of_length_le this]

/-- C1: at most one read or write operation is in flight against a device
at any time — along every reachable trace of interleaved poll and
write-command requests, every prefix has at most one (and never a negative
number of) open transport operation, so no two transport operations
overlap — and a queued write command is dispatched before any poll that
was queued after it for the same device. -/
theorem session_serialization_and_priority (s : SessionState)
    (h : ReachableSession s) :
    (∀ n, 0 ≤ openOps (s.trace.take n) ∧ openOps (s.trace.take n) ≤ 1) ∧
    (∀ c p pre suf, c < p →
       s.trace = pre ++ SessionEvent.issue OpKind.poll p :: suf →
       SessionEvent.sub OpKind.cmd c ∈ pre →
       SessionEvent.issue OpKind.cmd c ∈ pre) := by
  constructor
  · intro n
    obtain ⟨s', hs', htr⟩ := reachableSession_take h n
    have hinv := sessionInv_reachable hs'
    rw [← htr, hinv.opensEq]
    by_cases hf : s'.inFlight.isSome <;> simp [hf]
  · intro c p pre suf hcp htr hsub
    obtain ⟨s', hs', htr'⟩ := reachableSession_take h (pre.length + 1)
    have hpre : s.trace.take (pre.length + 1)
        = pre ++ [SessionEvent.issue OpKind.poll p] := by
      rw [htr]
      simp [List.take_append_eq_append_take, List.take_of_length_le]
    rw [hpre] at htr'
    have hinv := sessionInv_reachable hs'
    have hip : SessionEvent.issue OpKind.poll p ∈ s'.trace := by
      rw [htr']
      exact List.mem_append_right _ (List.mem_singleton.2 rfl)
    have hsc : SessionEvent.sub OpKind.cmd c ∈ s'.trace := by
      rw [htr']
      exact List.mem_append_left _ hsub
    have hic := hinv.priority c p hcp hip hsc
    rw [htr'] at hic
    rcases List.mem_append.1 hic with h' | h'
    · exact h'
    · simp at h'

/-- A concrete session run: a write command is queued, then a poll; the
command is dispatched first, finishes, and only then is the poll
dispatched. -/
def demoSession : SessionState :=
  ⟨[], [], some (OpKind.poll, 1), 2,
   [SessionEvent.sub OpKind.cmd 0, SessionEvent.sub OpKind.poll 1,
    SessionEvent.issue OpKind.cmd 0, SessionEvent.fin OpKind.cmd 0,
    SessionEvent.issue OpKind.poll 1]⟩

/-- The concrete session run is reachable. -/
theorem demoSession_reachable : ReachableSession demoSession :=
  Relation.ReflTransGen.tail
    (Relation.ReflTransGen.tail
      (Relation.ReflTransGen.tail
        (Relation.ReflTransGen.tail
          (Relation.ReflTransGen.tail Relation.ReflTransGen.refl
            (SessionStep.submitCmd initSession))
          (SessionStep.submitPoll _))
        (SessionStep.dispatchCmd _ 0 [] rfl rfl))
      (SessionStep.complete _ OpKind.cmd 0 rfl))
    (SessionStep.dispatchPoll _ 1 [] rfl rfl rfl)

/-- Witness for C1 on the concrete run: no prefix has more than one open
operation, and the command queued before the later-queued poll was
dispatched before that poll. -/
theorem session_serialization_and_priority_witness :
    (0 ≤ openOps (demoSession.trace.take 3) ∧
       openOps (demoSession.trace.take 3) ≤ 1) ∧
    SessionEvent.issue OpKind.cmd 0 ∈
      [SessionEvent.sub OpKind.cmd 0, SessionEvent.sub OpKind.poll 1,
       SessionEvent.issue OpKind.cmd 0, SessionEvent.fin OpKind.cmd 0] :=
  ⟨(session_serialization_and_priority demoSession demoSession_reachable).1 3,
   (session_serialization_and_priority demoSession demoSession_reachable).2
     0 1
     [SessionEvent.sub OpKind.cmd 0, SessionEvent.sub OpKind.poll 1,
      SessionEvent.issue OpKind.cmd 0, SessionEvent.fin OpKind.cmd 0]
     [] (by decide) rfl (by decide)⟩

/-- Every serialized live-update message has the required wire shape. -/
theorem updateShape_toJson (u : RealTimeDataUpdate) :
    hasUpdateShape u.toJson = true := by
  obtain ⟨topic, ⟨ts, v, ⟨a, b, c, d, e⟩⟩⟩ := u
  cases v <;> rfl

/-- C2: every message delivered on the live-update subscription interface
has exactly the shape `{topic, payload:{timestamp, value, tags:{device_name,
slave_id, register_name, address, register_type}}}` with all five tag keys
present, and messages are streamed until the subscriber disconnects:
nothing arriving after the disconnect is delivered. -/
theorem liveUpdate_shape_until_disconnect :
    (∀ (inputs : List RelayInput) (j : Json), j ∈ relayDeliver inputs →
       hasUpdateShape j = true) ∧
    (∀ (pre suf : List RelayInput),
       relayDeliver (pre ++ RelayInput.disconnect :: suf) =
         relayDeliver pre) := by
  constructor
  · intro inputs
    induction inputs with
    | nil => simp [relayDeliver]
    | cons i rest ih =>
      cases i with
      | disconnect => simp [relayDeliver]
      | msg u =>
        intro j hj
        rcases List.mem_cons.1 hj with rfl | hj'
        · exact updateShape_toJson u
        · exact ih j hj'
  · intro pre
    induction pre with
    | nil =>
      intro suf
      simp [relayDeliver]
    | cons i rest ih =>
      intro suf
      cases i with
      | disconnect => simp [relayDeliver]
      | msg u => simp [relayDeliver, ih suf]

/-- Witness for C2: a concrete message pushed before a disconnect is
delivered with the required shape, and a concrete stream is cut at the
disconnect. -/
theorem liveUpdate_shape_until_disconnect_witness :
    hasUpdateShape
      (RealTimeDataUpdate.toJson
        ⟨"modbus/gateway/SimulatedDevice1",
         ⟨"2024-01-01T00:00:00Z", NBValue.num 7,
          ⟨"SimulatedDevice1", "1", "hr0", "0", "holding_register"⟩⟩⟩)
      = true :=
  liveUpdate_shape_until_disconnect.1
    [RelayInput.msg
      ⟨"modbus/gateway/SimulatedDevice1",
       ⟨"2024-01-01T00:00:00Z", NBValue.num 7,
        ⟨"SimulatedDevice1", "1", "hr0", "0", "holding_register"⟩⟩⟩]
    (RealTimeDataUpdate.toJson
      ⟨"modbus/gateway/SimulatedDevice1",
       ⟨"2024-01-01T00:00:00Z", NBValue.num 7,
        ⟨"SimulatedDevice1", "1", "hr0", "0", "holding_register"⟩⟩⟩)
    (by simp [relayDeliver])

/-- C3: the register kind of every submitted write command is restricted by
the `WriteRegisterRequest` type to coil or holding-register, and a command
whose value type does not match its kind (boolean for coil, numeric for
holding-register) is rejected without any operation reaching the device. -/
theorem writeCommand_validated_before_dispatch
    (dev : DeviceWriteOutcome) (req : WriteRegisterRequest) :
    (req.register_type = WritableKind.coil ∨
       req.register_type = WritableKind.holding_register) ∧
    (valueMatchesKind req.value req.register_type = false →
       (submitCommand dev req).1.status = "rejected" ∧
       (submitCommand dev req).2 = []) ∧
    ((submitCommand dev req).2 ≠ [] →
       valueMatchesKind req.value req.register_type = true) := by
  refine ⟨?_, ?_, ?_⟩
  · cases req.register_type
    · exact Or.inl rfl
    · exact Or.inr rfl
  · intro h
    simp [submitCommand, h]
  · intro h
    by_cases hv : valueMatchesKind req.value req.register_type
    · exact hv
    · exact absurd (by simp [submitCommand, hv]) h

/-- Witness for C3: a numeric value aimed at a coil is rejected and the
device is not touched. -/
theorem writeCommand_validated_before_dispatch_witness :
    (submitCommand DeviceWriteOutcome.ack
      ⟨1, 10, WriteValue.num 3, WritableKind.coil⟩).1.status = "rejected" ∧
    (submitCommand DeviceWriteOutcome.ack
      ⟨1, 10, WriteValue.num 3, WritableKind.coil⟩).2 = [] :=
  (writeCommand_validated_before_dispatch DeviceWriteOutcome.ack
      ⟨1, 10, WriteValue.num 3, WritableKind.coil⟩).2.1 rfl

/-- C4: every request of shape `{slave_id, address, value, register_type}`
submitted to the command interface yields a `{status, message}` response
whose status is one of the Command Executor's terminal resolutions
`applied`, `rejected` or `failed`, whatever the device outcome. -/
theorem writeResponse_terminal_status
    (dev : DeviceWriteOutcome) (req : WriteRegisterRequest) :
    (submitCommand dev req).1.status = "applied" ∨
    (submitCommand dev req).1.status = "rejected" ∨
    (submitCommand dev req).1.status = "failed" := by
  by_cases hv : valueMatchesKind req.value req.register_type <;>
    cases dev <;> simp [submitCommand, hv]

/-- C5 counterexample: the `DataPoint` model of models.ts declares
`value: number | boolean | string`, so a stored data point with a string
value is well-typed — the claim that every DataPoint's value is numeric or
boolean fails on the historical model. -/
theorem dataPoint_string_value_counterexample :
    ¬ (∀ dp : DataPoint, DPValue.isNumOrBool dp.value = true) := by
  intro h
  have := h ⟨"2024-01-01T00:00:00Z", DPValue.str "offline", []⟩
  simp [DPValue.isNumOrBool] at this

/-- C5 amended: every data point as delivered to live subscribers (a
`RealTimeDataUpdate` payload) has a numeric-or-boolean value and carries
exactly the tag set {device_name, slave_id, register_name, address,
register_type}; the historical `DataPoint` model additionally admits
string values and open-ended tags. -/
theorem liveUpdate_value_type_and_tag_set (u : RealTimeDataUpdate) :
    Json.isNumOrBool (NBValue.toJson u.payload.value) = true ∧
    Json.keys (UpdateTags.toJson u.payload.tags) =
      ["device_name", "slave_id", "register_name", "address",
       "register_type"] := by
  constructor
  · cases u.payload.value <;> rfl
  · rfl

/-- C6 counterexample: gateway/config.yaml configures the device under the
name "SimulatedDevice1", not "SimDevice1", and with six register groups
(one holding-register, one input-register, two coil, two discrete-input
blocks), not exactly one. -/
theorem scenarioA_config_counterexample :
    ¬ (configuredSlave.name = "SimDevice1" ∧
       (SlaveConfig.groups configuredSlave).length = 1) := by
  decide

/-- C6 amended: the configured deployment has a device named
"SimulatedDevice1" with six register groups — among them exactly one
holding-register group, at address 0 with count 2 — polled every 5
seconds, so that after 3 poll ticks the Storage Sink has received 3
batches, each containing exactly 1 data point tagged
{device_name: SimulatedDevice1, register_type: holding_register,
address: "0"}. -/
theorem scenarioA_amended :
    configuredSlave.name = "SimulatedDevice1" ∧
    configuredSlave.polling_interval_seconds = 5 ∧
    (SlaveConfig.groups configuredSlave).length = 6 ∧
    configuredSlave.holding_registers = [⟨0, 2⟩] ∧
    (batchesAfterTicks 3).length = 3 ∧
    (batchesAfterTicks 3).all
      (fun batch => batch.countP (fun p => isScenarioAPoint p) == 1)
      = true := by
  refine ⟨rfl, rfl, by decide, rfl, rfl, by decide⟩

/-- Serializing a live-update message to the JSON wire shape and parsing it
back yields the original message. -/
theorem parseUpdate_toJson (u : RealTimeDataUpdate) :
    parseUpdate u.toJson = some u := by
  obtain ⟨topic, ⟨ts, v, ⟨a, b, c, d, e⟩⟩⟩ := u
  cases v <;> rfl

/-- C7: a data point produced by the Normalizer from a RawReading and a
RegisterGroup, serialized to the live-update message format and
deserialized back, yields a tag set exactly equal to the identity of the
originating RegisterGroup and DeviceDescriptor (device_name, slave_id,
register_name, address, register_type). -/
theorem normalizer_roundtrip (timestamp : String) (dev : DeviceDescriptor)
    (g : RegisterGroup) (r : RawReading) (p : UpdatePayload)
    (h : normalizeReading timestamp dev g r = some p) :
    parseUpdate (toUpdate p).toJson = some (toUpdate p) ∧
    ∀ u, parseUpdate (toUpdate p).toJson = some u →
      u.payload.tags =
        ⟨dev.name, toString dev.slave_id, g.name, toString g.address,
         RegKind.tagString g.kind⟩ := by
  have htags : p.tags =
      ⟨dev.name, toString dev.slave_id, g.name, toString g.address,
       RegKind.tagString g.kind⟩ := by
    rw [normalizeReading] at h
    split at h
    · exact absurd h (by simp)
    · rcases Option.some.inj h with rfl
      rfl
  refine ⟨parseUpdate_toJson (toUpdate p), ?_⟩
  intro u hu
  rw [parseUpdate_toJson (toUpdate p)] at hu
  rcases Option.some.inj hu with rfl
  exact htags

/-- Witness for C7: a holding-register reading of length 2 normalizes, and
its round-tripped tags are exactly the originating device and group
identity. -/
theorem normalizer_roundtrip_witness :
    parseUpdate
      (toUpdate ⟨"t0", NBValue.num 65538,
        ⟨"SimulatedDevice1", "1", "hr0", "0", "holding_register"⟩⟩).toJson
      = some (toUpdate ⟨"t0", NBValue.num 65538,
        ⟨"SimulatedDevice1", "1", "hr0", "0", "holding_register"⟩⟩) :=
  (normalizer_roundtrip "t0" ⟨"SimulatedDevice1", 1, [], 5⟩
    ⟨RegKind.holding_register, 0, 2, "hr0"⟩ ⟨[1, 2]⟩
    ⟨"t0", NBValue.num 65538,
      ⟨"SimulatedDevice1", "1", "hr0", "0", "holding_register"⟩⟩
    (by decide)).1

/-- C8: a historical query consists of a required time range plus only
optional filters: the query carrying nothing but `start_time` and
`end_time` is a well-formed `HistoricalQuery` with every optional tag
filter absent, and `getHistoricalData` accepts any well-formed query
unchanged — it requires a stored token but inspects no filter, so no
filter beyond the time range is required. -/
theorem historicalQuery_time_range_suffices (st et tok : String)
    (q : HistoricalQuery) (body : HistoricalDataResponse) :
    (timeRangeOnlyQuery st et).start_time = st ∧
    (timeRangeOnlyQuery st et).end_time = et ∧
    (timeRangeOnlyQuery st et).device_name = none ∧
    (timeRangeOnlyQuery st et).slave_id = none ∧
    (timeRangeOnlyQuery st et).register_name = none ∧
    (timeRangeOnlyQuery st et).tags = none ∧
    getHistoricalData (some tok) (timeRangeOnlyQuery st et)
      ⟨true, 200, some body, none⟩ = (Except.ok body, some tok) ∧
    getHistoricalData (some tok) q ⟨true, 200, some body, none⟩
      = (Except.ok body, some tok) :=
  ⟨rfl, rfl, rfl, rfl, rfl, rfl, rfl, rfl⟩

/-- C9 counterexample: a login response that is ok at the HTTP level but
whose body fails to parse as JSON makes `loginUser` throw from
`response.json()` before `setToken` is reached, so the stored token is not
replaced although the server response was successful — "replaced exactly
when the response is successful" fails. -/
theorem loginUser_ok_unparsable_counterexample :
    ¬ (∀ (st : Option String) (resp : LoginHttpResponse),
        resp.ok = true →
        ∃ d : TokenResponse,
          loginUser st resp = (Except.ok d, some d.access_token)) := by
  intro h
  obtain ⟨d, hd⟩ := h (some "oldToken") ⟨true, none, none⟩ rfl
  simp [loginUser] at hd

/-- C9 amended: the stored token is replaced exactly when the server
response is ok and its body parses as a token response; in every other
case — a non-ok response, or an ok response with an unparsable body —
`loginUser` throws an error and the previously stored token (or its
absence) is unchanged. -/
theorem loginUser_atomic (st : Option String) (resp : LoginHttpResponse) :
    (∀ d : TokenResponse, resp.ok = true → resp.body = some d →
       loginUser st resp = (Except.ok d, some d.access_token)) ∧
    (resp.ok = false →
       loginUser st resp =
         (Except.error (resp.errDetail.getD "Login failed, server error."),
          st)) ∧
    (resp.ok = true → resp.body = none →
       loginUser st resp = (Except.error "invalid JSON body", st)) := by
  refine ⟨?_, ?_, ?_⟩
  · intro d hok hbody
    simp [loginUser, hok, hbody]
  · intro hok
    simp [loginUser, hok]
  · intro hok hbody
    simp [loginUser, hok, hbody]

/-- Witness for C9: a successful, parsable login stores the new token; a
failed login leaves the old token untouched. -/
theorem loginUser_atomic_witness :
    loginUser (some "oldToken") ⟨true, some ⟨"newToken", "bearer"⟩, none⟩
      = (Except.ok ⟨"newToken", "bearer"⟩, some "newToken") ∧
    loginUser (some "oldToken") ⟨false, none, some "bad credentials"⟩
      = (Except.error "bad credentials", some "oldToken") :=
  ⟨(loginUser_atomic (some "oldToken")
      ⟨true, some ⟨"newToken", "bearer"⟩, none⟩).1
      ⟨"newToken", "bearer"⟩ rfl rfl,
   (loginUser_atomic (some "oldToken")
      ⟨false, none, some "bad credentials"⟩).2.1 rfl⟩

/-- C10: the dashboard's real-time message list is a bounded buffer with
drop-oldest behaviour — after every received WebSocket message the list
holds at most 50 messages with the newest first; when the bound of 50 is
reached the oldest retained message is discarded; and a message that fails
to parse as JSON leaves the list unchanged. -/
theorem onMessage_bounded_dropOldest (m : RealTimeDataUpdate)
    (prevData : List RealTimeDataUpdate) :
    (onMessage (some m) prevData).length ≤ 50 ∧
    (onMessage (some m) prevData).head? = some m ∧
    (prevData.length = 50 →
       onMessage (some m) prevData = m :: prevData.dropLast) ∧
    onMessage none prevData = prevData := by
  refine ⟨?_, rfl, ?_, rfl⟩
  · simp [onMessage]
  · intro h
    simp only [onMessage, List.dropLast_eq_take, h]

/-- Witness for C10: on a full 50-message list, a new message is prepended
and the oldest message is dropped. -/
theorem onMessage_bounded_dropOldest_witness :
    onMessage
      (some ⟨"t1", ⟨"ts1", NBValue.num 2,
        ⟨"d", "1", "r", "0", "holding_register"⟩⟩⟩)
      (List.replicate 50 ⟨"t0", ⟨"ts0", NBValue.num 1,
        ⟨"d", "1", "r", "0", "holding_register"⟩⟩⟩)
      = ⟨"t1", ⟨"ts1", NBValue.num 2,
          ⟨"d", "1", "r", "0", "holding_register"⟩⟩⟩ ::
        (List.replicate 50 (⟨"t0", ⟨"ts0", NBValue.num 1,
          ⟨"d", "1", "r", "0", "holding_register"⟩⟩⟩
            : RealTimeDataUpdate)).dropLast :=
  (onMessage_bounded_dropOldest
    ⟨"t1", ⟨"ts1", NBValue.num 2, ⟨"d", "1", "r", "0", "holding_register"⟩⟩⟩
    (List.replicate 50 ⟨"t0", ⟨"ts0", NBValue.num 1,
      ⟨"d", "1", "r", "0", "holding_register"⟩⟩⟩)).2.2.1
    (List.length_replicate 50 _)
